import Mathlib

/-!
# Express-Jobly route controllers: a shallow embedding

This file embeds the three route controllers of the repository
(`src/routes/companies.js`, `src/routes/jobs.js`, and the users router in
`src/models/user.js`) as total Lean functions from a request and a database
state to an HTTP response, a successor state, and an ordered trace of the
operations the handler performed.

The repository ships only the controllers.  The collaborators they import —
the authorization middleware (`ensureLoggedIn` / `ensureAdmin`), the
data-access models (`User`, `Company`, `Job`), the JSON schemas, the token
helper (`createToken`), and the error classes — are absent, so those parts
are modelled from the specification (each such definition carries a
`Modelled from the spec:` doc comment).  Everything else is translated
directly from the JavaScript source.
-/

/-! ## JavaScript-ish values for query parameters and list filters

Query-string parameters arrive as `undefined` or as strings; the controllers
turn them into numbers (possibly `NaN`), booleans, or pass them through.
`JSVal` is just large enough to represent the values that actually flow into
the filter objects. -/

inductive JSVal where
  | undefined
  | nan
  | num (n : Int)
  | str (s : String)
  | bool (b : Bool)
deriving Repr, DecidableEq

/-- Fold a list of decimal digit characters into a natural number. -/
def digitsToNat (cs : List Char) : Nat :=
  cs.foldl (fun a c => a * 10 + (c.toNat - 48)) 0

/-- Modelled from the spec: the ECMAScript `parseInt` builtin (base 10) on a
string argument, which is absent from `src/`.  Leading whitespace is skipped,
an optional sign is read, then the longest run of leading decimal digits; if
that run is empty the result is `NaN`. -/
def parseIntCore (neg : Bool) (rest : List Char) : JSVal :=
  let ds := rest.takeWhile Char.isDigit
  if ds.isEmpty then JSVal.nan
  else if neg then JSVal.num (-(digitsToNat ds : Int))
  else JSVal.num (digitsToNat ds : Int)

/-- After trimming, an optional sign is dispatched to `parseIntCore`. -/
def parseIntStr (s : String) : JSVal :=
  match s.trim.data with
  | '-' :: r => parseIntCore true r
  | '+' :: r => parseIntCore false r
  | r => parseIntCore false r

/-- Modelled from the spec: `parseInt` applied to a possibly-`undefined`
query parameter.  `parseInt(undefined)` coerces `undefined` to the string
`"undefined"`, which parses to `NaN`. -/
def parseIntOpt : Option String → JSVal
  | none => JSVal.nan
  | some s => parseIntStr s

/-- A possibly-absent query parameter as a JavaScript value. -/
def optStr : Option String → JSVal
  | none => JSVal.undefined
  | some s => JSVal.str s

/-! ## Entities and database state -/

structure User where
  username : String
  firstName : String
  lastName : String
  password : String
  email : String
  isAdmin : Bool
deriving Repr, DecidableEq

structure Company where
  handle : String
  name : String
  description : String
  numEmployees : Int
  logoUrl : String
deriving Repr, DecidableEq

structure Job where
  id : Nat
  title : String
  salary : Int
  equity : String
  companyHandle : String
deriving Repr, DecidableEq

/-- Modelled from the spec: the persistence collaborator's state — the three
entity tables plus the next serial job id. -/
structure DB where
  users : List User := []
  companies : List Company := []
  jobs : List Job := []
  nextJobId : Nat := 1
deriving Repr, DecidableEq

/-! ## Request bodies

JSON request bodies, with every field optional, so that both complete and
partial (patch) bodies are representable. -/

structure UserBody where
  username : Option String := none
  firstName : Option String := none
  lastName : Option String := none
  password : Option String := none
  email : Option String := none
  isAdmin : Option Bool := none
deriving Repr, DecidableEq

structure CompanyBody where
  handle : Option String := none
  name : Option String := none
  description : Option String := none
  numEmployees : Option Int := none
  logoUrl : Option String := none
deriving Repr, DecidableEq

structure JobBody where
  title : Option String := none
  salary : Option Int := none
  equity : Option String := none
  companyHandle : Option String := none
deriving Repr, DecidableEq

/-! ## Validation adapter

Modelled from the spec (§4.1): the schemas themselves are absent from
`src/`.  "Creation schemas require all mandatory fields; update schemas
require none (partial patch semantics)."  The mandatory creation fields and
the fields an update may carry are taken from the route files' own doc
comments.  The adapter returns the (possibly empty) ordered list of error
descriptions; the body is valid exactly when the list is empty, matching
`validator.errors.map(e => e.stack)` in the controllers. -/

/-- Error string for a missing required property, in the style of the
`jsonschema` library's `e.stack`. -/
def requireErr (present : Bool) (field : String) : List String :=
  if present then [] else ["instance requires property \x22" ++ field ++ "\x22"]

/-- Error string for a property the update schema does not allow. -/
def forbidErr (present : Bool) (field : String) : List String :=
  if present then ["instance is not allowed to have the additional property \x22" ++ field ++ "\x22"] else []

/-- Modelled from the spec: `userNew.json`.  `POST /users` documents the
created user as `{ username, firstName, lastName, email, isAdmin }` plus a
password consumed at registration; all but `isAdmin` are required. -/
def userNewErrors (b : UserBody) : List String :=
  requireErr b.username.isSome "username" ++
  requireErr b.firstName.isSome "firstName" ++
  requireErr b.lastName.isSome "lastName" ++
  requireErr b.password.isSome "password" ++
  requireErr b.email.isSome "email"

/-- Modelled from the spec: `userUpdate.json`.  The PATCH route documents
"Data can include: { firstName, lastName, password, email, isAdmin }"; no
field is required, and `username` is not updatable. -/
def userUpdateErrors (b : UserBody) : List String :=
  forbidErr b.username.isSome "username"

/-- Modelled from the spec: `companyNew.json`.  The POST route documents
"Requires { handle, name, description, numEmployees, logoUrl } in body". -/
def companyNewErrors (b : CompanyBody) : List String :=
  requireErr b.handle.isSome "handle" ++
  requireErr b.name.isSome "name" ++
  requireErr b.description.isSome "description" ++
  requireErr b.numEmployees.isSome "numEmployees" ++
  requireErr b.logoUrl.isSome "logoUrl"

/-- Modelled from the spec: `companyUpdate.json`.  The PATCH route documents
"Data can include { name, description, numEmployees, logoUrl }"; the handle
is immutable, so a `handle` property is rejected. -/
def companyUpdateErrors (b : CompanyBody) : List String :=
  forbidErr b.handle.isSome "handle"

/-- Modelled from the spec: `jobNew.json`.  The POST route documents "Data
should include { title, salary, equity, companyHandle }". -/
def jobNewErrors (b : JobBody) : List String :=
  requireErr b.title.isSome "title" ++
  requireErr b.salary.isSome "salary" ++
  requireErr b.equity.isSome "equity" ++
  requireErr b.companyHandle.isSome "companyHandle"

/-- Modelled from the spec: `jobUpdate.json`.  The PATCH route documents
"Data can include { title, salary, equity }"; the owning company is
immutable, so a `companyHandle` property is rejected. -/
def jobUpdateErrors (b : JobBody) : List String :=
  forbidErr b.companyHandle.isSome "companyHandle"

/-! ## Errors, responses, and the error responder -/

/-- The message payload of an error response: either a single string or an
ordered list of error descriptions (the `jsonschema` error list the users
router throws as-is, `expressError`'s message may be either). -/
inductive ErrPayload where
  | msgStr (s : String)
  | msgList (l : List String)
deriving Repr, DecidableEq

/-- Modelled from the spec: the `expressError` condition taxonomy (§7) the
controllers throw and forward — BadRequest 400, Unauthorized 401,
NotFound 404. -/
inductive AppError where
  | badRequest (payload : ErrPayload)
  | unauthorized
  | notFound (msg : String)
deriving Repr, DecidableEq

/-- The JSON body of a successful response, one constructor per response
shape the three routers produce. -/
inductive ResBody where
  | userToken (user : User) (token : String)
  | user (u : User)
  | users (us : List User)
  | company (c : Company) (jobs : List Job)
  | companyOnly (c : Company)
  | companies (cs : List Company)
  | job (j : Job)
  | jobs (js : List Job)
  | deleted (key : String)
  | deletedId (id : Nat)
deriving Repr, DecidableEq

/-- An HTTP response: a success with a status and JSON body, or an error
`{ error: { message, status } }` produced by the error responder. -/
inductive Response where
  | ok (status : Nat) (body : ResBody)
  | err (status : Nat) (payload : ErrPayload)
deriving Repr, DecidableEq

def Response.status : Response → Nat
  | .ok s _ => s
  | .err s _ => s

/-- Whether a response is a `200 { deleted: key }` success. -/
def Response.isDeletedOk : Response → Bool
  | .ok 200 (.deleted _) => true
  | .ok 200 (.deletedId _) => true
  | _ => false

/-- Modelled from the spec: the centralized error responder (§4.4, §7) that
every controller forwards a thrown condition to via `next(err)`; it maps the
condition's kind to a status and emits the message payload. -/
def errorResponder : AppError → Response
  | .badRequest p => Response.err 400 p
  | .unauthorized => Response.err 401 (ErrPayload.msgStr "Unauthorized")
  | .notFound m => Response.err 404 (ErrPayload.msgStr m)

/-! ## Handler traces

Each embedded handler also returns the ordered list of checks and
data-access calls it performed, so that ordering properties ("validates
before the ownership check", "the model is never invoked") are stated about
the trace rather than inferred from the response alone. -/

inductive Event where
  | guardAdmin (ok : Bool)
  | guardLoggedIn (ok : Bool)
  | validate (schema : String) (ok : Bool)
  | ownershipCheck (ok : Bool)
  | dbRead (op : String)
  | dbWrite (op : String)
deriving Repr, DecidableEq

def Event.isDbWrite : Event → Bool
  | .dbWrite _ => true
  | _ => false

def Event.isValidate : Event → Bool
  | .validate _ _ => true
  | _ => false

def Event.isOwnershipCheck : Event → Bool
  | .ownershipCheck _ => true
  | _ => false

/-- Whether a trace contains any data-access mutation. -/
def hasWrite (es : List Event) : Bool :=
  es.any Event.isDbWrite

/-! ## Authorization guards -/

/-- The authenticated principal the auth middleware attaches to a request
(`req.user`): `{ username, isAdmin }`. -/
structure Principal where
  username : String
  isAdmin : Bool
deriving Repr, DecidableEq

/-- Modelled from the spec: `ensureLoggedIn` (§4.2) — fails with an
Unauthorized condition if no principal is attached to the request, and
otherwise lets the handler proceed with the attached principal. -/
def ensureLoggedIn : Option Principal → Except AppError Principal
  | some pr => Except.ok pr
  | none => Except.error AppError.unauthorized

/-- Modelled from the spec: `ensureAdmin` (§4.2) — fails with an
Unauthorized condition if the attached principal's privilege flag is not
set, regardless of authentication state. -/
def ensureAdmin : Option Principal → Except AppError Principal
  | some pr => if pr.isAdmin then Except.ok pr else Except.error AppError.unauthorized
  | none => Except.error AppError.unauthorized

/-! ## Data-access models

Modelled from the spec (§6): a persistence layer per resource exposing
register/create/findAll/get/update/remove and raising a not-found condition
for missing keys.  Lists play the role of tables; usernames, handles and job
ids are the unique keys (§3). -/

/-- Modelled from the spec: `User.register` — inserts the new user record
and returns it.  The controller validates the body first, so the required
fields are present; `isAdmin` defaults to false when absent. -/
def User.register (db : DB) (b : UserBody) : DB × User :=
  let u : User :=
    { username := b.username.getD ""
      firstName := b.firstName.getD ""
      lastName := b.lastName.getD ""
      password := b.password.getD ""
      email := b.email.getD ""
      isAdmin := b.isAdmin.getD false }
  ({ db with users := db.users ++ [u] }, u)

/-- Modelled from the spec: `User.get` — returns the user with the given
username or raises the not-found condition. -/
def User.get (db : DB) (username : String) : Except AppError User :=
  match db.users.find? (fun u => u.username == username) with
  | some u => Except.ok u
  | none => Except.error (AppError.notFound ("No user: " ++ username))

/-- Modelled from the spec: `User.update` — partial patch of the allowed
fields of an existing user; raises the not-found condition for a missing
username. -/
def User.update (db : DB) (username : String) (b : UserBody) :
    Except AppError (DB × User) :=
  match db.users.find? (fun u => u.username == username) with
  | none => Except.error (AppError.notFound ("No user: " ++ username))
  | some u =>
    let u2 : User :=
      { u with
        firstName := b.firstName.getD u.firstName
        lastName := b.lastName.getD u.lastName
        password := b.password.getD u.password
        email := b.email.getD u.email
        isAdmin := b.isAdmin.getD u.isAdmin }
    Except.ok
      ({ db with users := db.users.map (fun w => if w.username == username then u2 else w) }, u2)

/-- Modelled from the spec: `User.remove` — deletes the user with the given
username or raises the not-found condition. -/
def User.remove (db : DB) (username : String) : Except AppError DB :=
  match db.users.find? (fun u => u.username == username) with
  | some _ => Except.ok { db with users := db.users.filter (fun u => !(u.username == username)) }
  | none => Except.error (AppError.notFound ("No user: " ++ username))

/-- Modelled from the spec: `Company.create` — inserts the new company and
returns it. -/
def Company.create (db : DB) (b : CompanyBody) : DB × Company :=
  let c : Company :=
    { handle := b.handle.getD ""
      name := b.name.getD ""
      description := b.description.getD ""
      numEmployees := b.numEmployees.getD 0
      logoUrl := b.logoUrl.getD "" }
  ({ db with companies := db.companies ++ [c] }, c)

/-- Modelled from the spec: `Company.get` — returns the company with the
given handle together with its jobs (the GET route nests the company's
jobs), or raises the not-found condition. -/
def Company.get (db : DB) (handle : String) : Except AppError (Company × List Job) :=
  match db.companies.find? (fun c => c.handle == handle) with
  | some c => Except.ok (c, db.jobs.filter (fun j => j.companyHandle == handle))
  | none => Except.error (AppError.notFound ("No company: " ++ handle))

/-- Modelled from the spec: `Company.update` — partial patch of the allowed
fields of an existing company; raises the not-found condition for a missing
handle. -/
def Company.update (db : DB) (handle : String) (b : CompanyBody) :
    Except AppError (DB × Company) :=
  match db.companies.find? (fun c => c.handle == handle) with
  | none => Except.error (AppError.notFound ("No company: " ++ handle))
  | some c =>
    let c2 : Company :=
      { c with
        name := b.name.getD c.name
        description := b.description.getD c.description
        numEmployees := b.numEmployees.getD c.numEmployees
        logoUrl := b.logoUrl.getD c.logoUrl }
    Except.ok
      ({ db with companies := db.companies.map (fun w => if w.handle == handle then c2 else w) }, c2)

/-- Modelled from the spec: `Company.remove` — deletes the company with the
given handle or raises the not-found condition. -/
def Company.remove (db : DB) (handle : String) : Except AppError DB :=
  match db.companies.find? (fun c => c.handle == handle) with
  | some _ => Except.ok { db with companies := db.companies.filter (fun c => !(c.handle == handle)) }
  | none => Except.error (AppError.notFound ("No company: " ++ handle))

/-- Modelled from the spec: `Job.create` — inserts the new job under the
next serial id and returns it. -/
def Job.create (db : DB) (b : JobBody) : DB × Job :=
  let j : Job :=
    { id := db.nextJobId
      title := b.title.getD ""
      salary := b.salary.getD 0
      equity := b.equity.getD ""
      companyHandle := b.companyHandle.getD "" }
  ({ db with jobs := db.jobs ++ [j], nextJobId := db.nextJobId + 1 }, j)

/-- Modelled from the spec: `Job.get` — returns the job with the given id or
raises the not-found condition. -/
def Job.get (db : DB) (id : Nat) : Except AppError Job :=
  match db.jobs.find? (fun j => j.id == id) with
  | some j => Except.ok j
  | none => Except.error (AppError.notFound ("No job: " ++ toString id))

/-- Modelled from the spec: `Job.update` — partial patch of the allowed
fields of an existing job; raises the not-found condition for a missing id. -/
def Job.update (db : DB) (id : Nat) (b : JobBody) : Except AppError (DB × Job) :=
  match db.jobs.find? (fun j => j.id == id) with
  | none => Except.error (AppError.notFound ("No job: " ++ toString id))
  | some j =>
    let j2 : Job :=
      { j with
        title := b.title.getD j.title
        salary := b.salary.getD j.salary
        equity := b.equity.getD j.equity }
    Except.ok ({ db with jobs := db.jobs.map (fun w => if w.id == id then j2 else w) }, j2)

/-- Modelled from the spec: `Job.remove` — deletes the job with the given id
or raises the not-found condition. -/
def Job.remove (db : DB) (id : Nat) : Except AppError DB :=
  match db.jobs.find? (fun j => j.id == id) with
  | some _ => Except.ok { db with jobs := db.jobs.filter (fun j => !(j.id == id)) }
  | none => Except.error (AppError.notFound ("No job: " ++ toString id))

/-! ## List filters -/

/-- The query string of `GET /companies`: each parameter is absent or a raw
string, as Express delivers `req.query`. -/
structure CompanyQuery where
  name : Option String := none
  minEmployees : Option String := none
  maxEmployees : Option String := none
deriving Repr, DecidableEq

/-- The query string of `GET /jobs`. -/
structure JobQuery where
  title : Option String := none
  minSalary : Option String := none
  hasEquity : Option String := none
deriving Repr, DecidableEq

/-- The filter object `GET /companies` builds and hands to
`Company.findAll`. -/
structure CompanyFilters where
  name : JSVal
  minEmployees : JSVal
  maxEmployees : JSVal
deriving Repr, DecidableEq

/-- The filter object `GET /jobs` builds and hands to `Job.findAll`. -/
structure JobFilters where
  title : JSVal
  minSalary : JSVal
  hasEquity : JSVal
deriving Repr, DecidableEq

/-- From `src/routes/companies.js` (GET `/`):
`{ name, minEmployees: parseInt(minEmployees), maxEmployees: parseInt(maxEmployees) }` —
`parseInt` is applied unconditionally, also to absent parameters. -/
def companiesFiltersOf (q : CompanyQuery) : CompanyFilters :=
  { name := optStr q.name
    minEmployees := parseIntOpt q.minEmployees
    maxEmployees := parseIntOpt q.maxEmployees }

/-- JavaScript truthiness of a possibly-absent string: `undefined` and the
empty string are falsy. -/
def truthyStr : Option String → Bool
  | none => false
  | some s => !(s == "")

/-- From `src/routes/jobs.js` (GET `/`):
`{ title, minSalary: minSalary ? parseInt(minSalary) : undefined, hasEquity: hasEquity === "true" }`. -/
def jobsFiltersOf (q : JobQuery) : JobFilters :=
  { title := optStr q.title
    minSalary := if truthyStr q.minSalary then parseIntOpt q.minSalary else JSVal.undefined
    hasEquity := JSVal.bool (q.hasEquity == some "true") }

/-- `a` occurs as a contiguous run at the head of `b`. -/
def leadMatch : List Char → List Char → Bool
  | [], _ => true
  | _ :: _, [] => false
  | a :: as, b :: bs => a == b && leadMatch as bs

/-- `pat` occurs as a contiguous run somewhere in `s`. -/
def hasSub (pat : List Char) : List Char → Bool
  | [] => pat.isEmpty
  | c :: cs => leadMatch pat (c :: cs) || hasSub pat cs

/-- A lower bound expressed as a JavaScript value: `undefined` imposes no
constraint, a number imposes `bound ≤ v`, and `NaN` (like every JavaScript
comparison with `NaN`) holds of nothing. -/
def jsLowerBound (bound : JSVal) (v : Int) : Bool :=
  match bound with
  | JSVal.num n => n ≤ v
  | JSVal.nan => false
  | _ => true

/-- An upper bound expressed as a JavaScript value, dually. -/
def jsUpperBound (bound : JSVal) (v : Int) : Bool :=
  match bound with
  | JSVal.num n => v ≤ n
  | JSVal.nan => false
  | _ => true

/-- A substring constraint expressed as a JavaScript value: a string must
occur as a substring, anything else imposes no constraint. -/
def jsNameMatch (pat : JSVal) (s : String) : Bool :=
  match pat with
  | JSVal.str p => hasSub p.data s.data
  | _ => true

/-- Modelled from the spec: `Company.findAll` — filters companies by `name`
substring and the `minEmployees`/`maxEmployees` bounds (§4.3). -/
def Company.findAll (db : DB) (f : CompanyFilters) : List Company :=
  db.companies.filter (fun c =>
    jsNameMatch f.name c.name &&
    jsLowerBound f.minEmployees c.numEmployees &&
    jsUpperBound f.maxEmployees c.numEmployees)

/-- Modelled from the spec: `Job.findAll` — filters jobs by `title`
substring, the `minSalary` bound, and the `hasEquity` flag (§4.3); when the
flag is true only jobs with a nonzero equity fraction are kept. -/
def Job.findAll (db : DB) (f : JobFilters) : List Job :=
  db.jobs.filter (fun j =>
    jsNameMatch f.title j.title &&
    jsLowerBound f.minSalary j.salary &&
    (match f.hasEquity with
     | JSVal.bool true => !(j.equity == "0") && !(j.equity == "")
     | _ => true))

/-- Modelled from the spec: the token-issuance helper `createToken` (§6) —
consumes a user record and returns a signed credential string over the
payload `{ username, isAdmin }`. -/
def createToken (u : User) : String :=
  "signed:" ++ u.username ++ ":" ++ (if u.isAdmin then "admin" else "user")

/-! ## Route handlers

Each handler is the direct translation of one `router.<verb>` registration:
middleware first, then the body of the `try`, with every `throw`/`next(err)`
routed through `errorResponder`.  The result is the response, the successor
database state, and the handler's trace. -/

/-- `POST /users` (`src/models/user.js` lines 22–36): `ensureAdmin`, validate
against `userNewSchema` (throwing `BadRequestError(errs)` with the error
*list*), `User.register`, `createToken`, respond
`201 { user, token }`. -/
def postUsers (p : Option Principal) (body : UserBody) (db : DB) :
    Response × DB × List Event :=
  match ensureAdmin p with
  | Except.error e => (errorResponder e, db, [Event.guardAdmin false])
  | Except.ok _ =>
    let errs := userNewErrors body
    if errs.isEmpty then
      let (db2, u) := User.register db body
      (Response.ok 201 (ResBody.userToken u (createToken u)), db2,
        [Event.guardAdmin true, Event.validate "userNew" true, Event.dbWrite "User.register"])
    else
      (errorResponder (AppError.badRequest (ErrPayload.msgList errs)), db,
        [Event.guardAdmin true, Event.validate "userNew" false])

/-- `GET /users/:username` (`src/models/user.js` lines 55–69):
`ensureLoggedIn`, `User.get`, then the self-or-admin check
`req.user.username !== username && !req.user.isAdmin`, respond `{ user }`.
The source's `if (!user)` guard after the read is unreachable here because
the spec-modelled `User.get` raises the not-found condition itself (§6). -/
def getUserByName (p : Option Principal) (username : String) (db : DB) :
    Response × DB × List Event :=
  match ensureLoggedIn p with
  | Except.error e => (errorResponder e, db, [Event.guardLoggedIn false])
  | Except.ok pr =>
    match User.get db username with
    | Except.error e =>
      (errorResponder e, db, [Event.guardLoggedIn true, Event.dbRead "User.get"])
    | Except.ok u =>
      if !(pr.username == username) && !pr.isAdmin then
        (errorResponder AppError.unauthorized, db,
          [Event.guardLoggedIn true, Event.dbRead "User.get", Event.ownershipCheck false])
      else
        (Response.ok 200 (ResBody.user u), db,
          [Event.guardLoggedIn true, Event.dbRead "User.get", Event.ownershipCheck true])

/-- `PATCH /users/:username` (`src/models/user.js` lines 76–93):
`ensureLoggedIn`, validate against `userUpdateSchema` (throwing
`BadRequestError(errs)` with the error *list*), then the self-or-admin
check, then `User.update`, respond `{ user }`. -/
def patchUser (p : Option Principal) (username : String) (body : UserBody) (db : DB) :
    Response × DB × List Event :=
  match ensureLoggedIn p with
  | Except.error e => (errorResponder e, db, [Event.guardLoggedIn false])
  | Except.ok pr =>
    let errs := userUpdateErrors body
    if !errs.isEmpty then
      (errorResponder (AppError.badRequest (ErrPayload.msgList errs)), db,
        [Event.guardLoggedIn true, Event.validate "userUpdate" false])
    else if !(pr.username == username) && !pr.isAdmin then
      (errorResponder AppError.unauthorized, db,
        [Event.guardLoggedIn true, Event.validate "userUpdate" true, Event.ownershipCheck false])
    else
      match User.update db username body with
      | Except.error e =>
        (errorResponder e, db,
          [Event.guardLoggedIn true, Event.validate "userUpdate" true,
           Event.ownershipCheck true, Event.dbWrite "User.update"])
      | Except.ok (db2, u) =>
        (Response.ok 200 (ResBody.user u), db2,
          [Event.guardLoggedIn true, Event.validate "userUpdate" true,
           Event.ownershipCheck true, Event.dbWrite "User.update"])

/-- `DELETE /users/:username` (`src/models/user.js` lines 99–111):
`ensureLoggedIn`, then the self-or-admin check, then `User.remove`, respond
`{ deleted: username }`. -/
def deleteUser (p : Option Principal) (username : String) (db : DB) :
    Response × DB × List Event :=
  match ensureLoggedIn p with
  | Except.error e => (errorResponder e, db, [Event.guardLoggedIn false])
  | Except.ok pr =>
    if !(pr.username == username) && !pr.isAdmin then
      (errorResponder AppError.unauthorized, db,
        [Event.guardLoggedIn true, Event.ownershipCheck false])
    else
      match User.remove db username with
      | Except.error e =>
        (errorResponder e, db,
          [Event.guardLoggedIn true, Event.ownershipCheck true, Event.dbWrite "User.remove"])
      | Except.ok db2 =>
        (Response.ok 200 (ResBody.deleted username), db2,
          [Event.guardLoggedIn true, Event.ownershipCheck true, Event.dbWrite "User.remove"])

/-- `POST /companies` (`src/routes/companies.js` lines 24–37): `ensureAdmin`,
validate against `companyNewSchema` (throwing
`BadRequestError(errors.join(", "))` — a *string*), `Company.create`,
respond `201 { company }`. -/
def postCompanies (p : Option Principal) (body : CompanyBody) (db : DB) :
    Response × DB × List Event :=
  match ensureAdmin p with
  | Except.error e => (errorResponder e, db, [Event.guardAdmin false])
  | Except.ok _ =>
    let errs := companyNewErrors body
    if errs.isEmpty then
      let (db2, c) := Company.create db body
      (Response.ok 201 (ResBody.companyOnly c), db2,
        [Event.guardAdmin true, Event.validate "companyNew" true, Event.dbWrite "Company.create"])
    else
      (errorResponder (AppError.badRequest (ErrPayload.msgStr (String.intercalate ", " errs))), db,
        [Event.guardAdmin true, Event.validate "companyNew" false])

/-- `GET /companies` (`src/routes/companies.js` lines 46–55): build the
filter object and respond `{ companies: Company.findAll(filters) }`. -/
def getCompanies (q : CompanyQuery) (db : DB) : Response × DB × List Event :=
  let filters := companiesFiltersOf q
  (Response.ok 200 (ResBody.companies (Company.findAll db filters)), db,
    [Event.dbRead "Company.findAll"])

/-- `GET /companies/:handle` (`src/routes/companies.js` lines 64–74):
`Company.get`, respond `{ company }` with the company's jobs nested.  The
source's `if (!company)` guard is unreachable because the spec-modelled
`Company.get` raises the not-found condition itself (§6). -/
def getCompanyByHandle (handle : String) (db : DB) : Response × DB × List Event :=
  match Company.get db handle with
  | Except.error e => (errorResponder e, db, [Event.dbRead "Company.get"])
  | Except.ok (c, js) =>
    (Response.ok 200 (ResBody.company c js), db, [Event.dbRead "Company.get"])

/-- `PATCH /companies/:handle` (`src/routes/companies.js` lines 83–96):
`ensureAdmin`, validate against `companyUpdateSchema` (throwing the joined
*string*), `Company.update`, respond `{ company }`. -/
def patchCompany (p : Option Principal) (handle : String) (body : CompanyBody) (db : DB) :
    Response × DB × List Event :=
  match ensureAdmin p with
  | Except.error e => (errorResponder e, db, [Event.guardAdmin false])
  | Except.ok _ =>
    let errs := companyUpdateErrors body
    if errs.isEmpty then
      match Company.update db handle body with
      | Except.error e =>
        (errorResponder e, db,
          [Event.guardAdmin true, Event.validate "companyUpdate" true, Event.dbWrite "Company.update"])
      | Except.ok (db2, c) =>
        (Response.ok 200 (ResBody.companyOnly c), db2,
          [Event.guardAdmin true, Event.validate "companyUpdate" true, Event.dbWrite "Company.update"])
    else
      (errorResponder (AppError.badRequest (ErrPayload.msgStr (String.intercalate ", " errs))), db,
        [Event.guardAdmin true, Event.validate "companyUpdate" false])

/-- `DELETE /companies/:handle` (`src/routes/companies.js` lines 104–111):
`ensureAdmin`, `Company.remove`, respond `{ deleted: handle }`. -/
def deleteCompany (p : Option Principal) (handle : String) (db : DB) :
    Response × DB × List Event :=
  match ensureAdmin p with
  | Except.error e => (errorResponder e, db, [Event.guardAdmin false])
  | Except.ok _ =>
    match Company.remove db handle with
    | Except.error e =>
      (errorResponder e, db, [Event.guardAdmin true, Event.dbWrite "Company.remove"])
    | Except.ok db2 =>
      (Response.ok 200 (ResBody.deleted handle), db2,
        [Event.guardAdmin true, Event.dbWrite "Company.remove"])

/-- `POST /jobs` (`src/routes/jobs.js` lines 19–32): `ensureAdmin`, validate
against `jobNewSchema` (throwing the joined *string*), `Job.create`, respond
`201 { job }`. -/
def postJobs (p : Option Principal) (body : JobBody) (db : DB) :
    Response × DB × List Event :=
  match ensureAdmin p with
  | Except.error e => (errorResponder e, db, [Event.guardAdmin false])
  | Except.ok _ =>
    let errs := jobNewErrors body
    if errs.isEmpty then
      let (db2, j) := Job.create db body
      (Response.ok 201 (ResBody.job j), db2,
        [Event.guardAdmin true, Event.validate "jobNew" true, Event.dbWrite "Job.create"])
    else
      (errorResponder (AppError.badRequest (ErrPayload.msgStr (String.intercalate ", " errs))), db,
        [Event.guardAdmin true, Event.validate "jobNew" false])

/-- `GET /jobs` (`src/routes/jobs.js` lines 40–53): build the filter object
and respond `{ jobs: Job.findAll(filters) }`. -/
def getJobs (q : JobQuery) (db : DB) : Response × DB × List Event :=
  let filters := jobsFiltersOf q
  (Response.ok 200 (ResBody.jobs (Job.findAll db filters)), db,
    [Event.dbRead "Job.findAll"])

/-- `GET /jobs/:id` (`src/routes/jobs.js` lines 60–67): `Job.get`, respond
`{ job }`; a missing id surfaces as the model's not-found condition. -/
def getJobById (id : Nat) (db : DB) : Response × DB × List Event :=
  match Job.get db id with
  | Except.error e => (errorResponder e, db, [Event.dbRead "Job.get"])
  | Except.ok j => (Response.ok 200 (ResBody.job j), db, [Event.dbRead "Job.get"])

/-- `PATCH /jobs/:id` (`src/routes/jobs.js` lines 75–88): `ensureAdmin`,
validate against `jobUpdateSchema` (throwing the joined *string*),
`Job.update`, respond `{ job }`. -/
def patchJob (p : Option Principal) (id : Nat) (body : JobBody) (db : DB) :
    Response × DB × List Event :=
  match ensureAdmin p with
  | Except.error e => (errorResponder e, db, [Event.guardAdmin false])
  | Except.ok _ =>
    let errs := jobUpdateErrors body
    if errs.isEmpty then
      match Job.update db id body with
      | Except.error e =>
        (errorResponder e, db,
          [Event.guardAdmin true, Event.validate "jobUpdate" true, Event.dbWrite "Job.update"])
      | Except.ok (db2, j) =>
        (Response.ok 200 (ResBody.job j), db2,
          [Event.guardAdmin true, Event.validate "jobUpdate" true, Event.dbWrite "Job.update"])
    else
      (errorResponder (AppError.badRequest (ErrPayload.msgStr (String.intercalate ", " errs))), db,
        [Event.guardAdmin true, Event.validate "jobUpdate" false])

/-- `DELETE /jobs/:id` (`src/routes/jobs.js` lines 95–102): `ensureAdmin`,
`Job.remove`, respond `{ deleted: id }`. -/
def deleteJob (p : Option Principal) (id : Nat) (db : DB) :
    Response × DB × List Event :=
  match ensureAdmin p with
  | Except.error e => (errorResponder e, db, [Event.guardAdmin false])
  | Except.ok _ =>
    match Job.remove db id with
    | Except.error e =>
      (errorResponder e, db, [Event.guardAdmin true, Event.dbWrite "Job.remove"])
    | Except.ok db2 =>
      (Response.ok 200 (ResBody.deletedId id), db2,
        [Event.guardAdmin true, Event.dbWrite "Job.remove"])

/-! ## Helper predicates for the statements -/

/-- The named username exists in the user table. -/
def userExists (db : DB) (username : String) : Bool :=
  (db.users.find? (fun u => u.username == username)).isSome

/-- The named handle exists in the company table. -/
def companyExists (db : DB) (handle : String) : Bool :=
  (db.companies.find? (fun c => c.handle == handle)).isSome

/-- The given id exists in the job table. -/
def jobExists (db : DB) (id : Nat) : Bool :=
  (db.jobs.find? (fun j => j.id == id)).isSome

/-- A response is a 400-class error carrying the error-list payload. -/
def isListPayload : Response → Bool
  | Response.err _ (ErrPayload.msgList _) => true
  | _ => false

/-- The request was rejected with 401, the state is unchanged, and the trace
shows no data-access mutation. -/
def rejectedNoMutation (r : Response × DB × List Event) (db : DB) : Prop :=
  r.1.status = 401 ∧ r.2.1 = db ∧ hasWrite r.2.2 = false

/-! ## Sample data for concrete instantiations -/

def aliceP : Principal := { username := "alice", isAdmin := false }

def bossP : Principal := { username := "boss", isAdmin := true }

def zoeP : Principal := { username := "zoe", isAdmin := false }

def bobRec : User :=
  { username := "bob", firstName := "Bob", lastName := "Beta"
    password := "pw", email := "bob@example.com", isAdmin := false }

def ibmRec : Company :=
  { handle := "ibm", name := "IBM", description := "tech"
    numEmployees := 5, logoUrl := "logo.png" }

def devJob : Job :=
  { id := 7, title := "Dev", salary := 10, equity := "0", companyHandle := "ibm" }

def dbSample : DB :=
  { users := [bobRec], companies := [ibmRec], jobs := [devJob], nextJobId := 8 }

/-! ## Claims -/

/-- C1: a non-admin principal hitting `POST /users`,
`POST/PATCH/DELETE /companies`, or `POST/PATCH/DELETE /jobs` receives 401
Unauthorized, the database is unchanged, and no data-access create/update/
remove operation appears in the trace. -/
theorem nonAdmin_mutations_rejected (pr : Principal) (hadm : pr.isAdmin = false)
    (ub : UserBody) (cb : CompanyBody) (jb : JobBody)
    (handle : String) (id : Nat) (db : DB) :
    rejectedNoMutation (postUsers (some pr) ub db) db ∧
    rejectedNoMutation (postCompanies (some pr) cb db) db ∧
    rejectedNoMutation (patchCompany (some pr) handle cb db) db ∧
    rejectedNoMutation (deleteCompany (some pr) handle db) db ∧
    rejectedNoMutation (postJobs (some pr) jb db) db ∧
    rejectedNoMutation (patchJob (some pr) id jb db) db ∧
    rejectedNoMutation (deleteJob (some pr) id db) db := by
  refine ⟨?_, ?_, ?_, ?_, ?_, ?_, ?_⟩ <;>
    simp [rejectedNoMutation, postUsers, postCompanies, patchCompany, deleteCompany,
      postJobs, patchJob, deleteJob, ensureAdmin, hadm, errorResponder,
      Response.status, hasWrite, Event.isDbWrite]

/-- C1 witness: the non-admin `alice` is turned away from all seven
mutation routes over the sample database. -/
theorem nonAdmin_mutations_rejected_witness :
    rejectedNoMutation (postUsers (some aliceP) {} dbSample) dbSample ∧
    rejectedNoMutation (postCompanies (some aliceP) {} dbSample) dbSample ∧
    rejectedNoMutation (patchCompany (some aliceP) "ibm" {} dbSample) dbSample ∧
    rejectedNoMutation (deleteCompany (some aliceP) "ibm" dbSample) dbSample ∧
    rejectedNoMutation (postJobs (some aliceP) {} dbSample) dbSample ∧
    rejectedNoMutation (patchJob (some aliceP) 7 {} dbSample) dbSample ∧
    rejectedNoMutation (deleteJob (some aliceP) 7 dbSample) dbSample :=
  nonAdmin_mutations_rejected aliceP (by decide) {} {} {} "ibm" 7 dbSample
/-- C2 counterexample: the authenticated non-admin `alice` requesting
`GET /users/bob` when no user `bob` exists receives the 404 not-found
condition, not 401 as the claim states. -/
theorem userRoutes_mismatch_not_always_401 :
    (getUserByName (some aliceP) "bob" {}).1.status = 404 ∧
    ¬ (getUserByName (some aliceP) "bob" {}).1.status = 401 := by
  decide

/-- C2 (amended): for an authenticated non-admin principal addressing a
different username, `DELETE /users/:username` always returns 401;
`PATCH /users/:username` returns 401 when the body passes the update schema
and 400 when it does not; `GET /users/:username` returns 401 when the target
user exists and the 404 not-found condition when it does not. -/
theorem userRoutes_mismatch_status (pr : Principal) (username : String)
    (body : UserBody) (db : DB)
    (hne : pr.username ≠ username) (hadm : pr.isAdmin = false) :
    (deleteUser (some pr) username db).1.status = 401 ∧
    (userUpdateErrors body = [] → (patchUser (some pr) username body db).1.status = 401) ∧
    (userUpdateErrors body ≠ [] → (patchUser (some pr) username body db).1.status = 400) ∧
    (userExists db username = true → (getUserByName (some pr) username db).1.status = 401) ∧
    (userExists db username = false → (getUserByName (some pr) username db).1.status = 404) := by
  have hb : (pr.username == username) = false := by
    simp [hne]
  refine ⟨?_, ?_, ?_, ?_, ?_⟩
  · simp [deleteUser, ensureLoggedIn, hb, hadm, errorResponder, Response.status]
  · intro hv
    simp [patchUser, ensureLoggedIn, hb, hadm, hv, errorResponder, Response.status]
  · intro hv
    cases hE : (userUpdateErrors body).isEmpty with
    | true => exact absurd (List.isEmpty_iff.mp hE) hv
    | false =>
      simp [patchUser, ensureLoggedIn, hE, errorResponder, Response.status]
  · intro hex
    unfold userExists at hex
    cases hfind : db.users.find? (fun u => u.username == username) with
    | none => rw [hfind] at hex; simp at hex
    | some u =>
      simp [getUserByName, ensureLoggedIn, User.get, hfind, hb, hadm,
        errorResponder, Response.status]
  · intro hex
    unfold userExists at hex
    cases hfind : db.users.find? (fun u => u.username == username) with
    | some u => rw [hfind] at hex; simp at hex
    | none =>
      simp [getUserByName, ensureLoggedIn, User.get, hfind,
        errorResponder, Response.status]

/-- C2 (amended) witness: over the sample database, `alice` gets 401 from
DELETE, 401 from a well-formed PATCH, 400 from a PATCH carrying `username`,
401 from GET on the existing `bob`, and 404 from GET on a missing name. -/
theorem userRoutes_mismatch_status_witness :
    (deleteUser (some aliceP) "bob" dbSample).1.status = 401 ∧
    (patchUser (some aliceP) "bob" ({} : UserBody) dbSample).1.status = 401 ∧
    (patchUser (some aliceP) "bob" ({ username := some "zoe" } : UserBody) dbSample).1.status = 400 ∧
    (getUserByName (some aliceP) "bob" dbSample).1.status = 401 ∧
    (getUserByName (some aliceP) "zoe" dbSample).1.status = 404 :=
  ⟨(userRoutes_mismatch_status aliceP "bob" {} dbSample (by decide) (by decide)).1,
   (userRoutes_mismatch_status aliceP "bob" {} dbSample (by decide) (by decide)).2.1 (by decide),
   (userRoutes_mismatch_status aliceP "bob" { username := some "zoe" } dbSample
      (by decide) (by decide)).2.2.1 (by decide),
   (userRoutes_mismatch_status aliceP "bob" {} dbSample (by decide) (by decide)).2.2.2.1 (by decide),
   (userRoutes_mismatch_status aliceP "zoe" {} dbSample (by decide) (by decide)).2.2.2.2 (by decide)⟩
/-- C3 counterexample: `bob` exists in the sample database, yet
`GET /users/bob` by the authenticated non-admin `alice` returns 401, not the
200-with-entity the claim promises for every get-by-key on an existing
entity. -/
theorem getByKey_not_unconditional :
    userExists dbSample "bob" = true ∧
    (getUserByName (some aliceP) "bob" dbSample).1.status = 401 ∧
    ¬ (getUserByName (some aliceP) "bob" dbSample).1.status = 200 := by
  decide

/-- C3 (amended): `GET /companies/:handle` and `GET /jobs/:id` return the
404 not-found condition when the key names no entity and 200 with the entity
when it does; `GET /users/:username` behaves the same for an authenticated
requester who is the target or an admin, while an unauthenticated requester
gets 401 and an authenticated non-admin stranger gets 401 when the user
exists (and 404 when it does not). -/
theorem getByKey_status (db : DB) (handle : String) (id : Nat)
    (username : String) (pr : Principal) :
    (companyExists db handle = false → (getCompanyByHandle handle db).1.status = 404) ∧
    (∀ c js, Company.get db handle = Except.ok (c, js) →
      (getCompanyByHandle handle db).1 = Response.ok 200 (ResBody.company c js)) ∧
    (jobExists db id = false → (getJobById id db).1.status = 404) ∧
    (∀ j, Job.get db id = Except.ok j →
      (getJobById id db).1 = Response.ok 200 (ResBody.job j)) ∧
    ((getUserByName none username db).1.status = 401) ∧
    (userExists db username = false → (getUserByName (some pr) username db).1.status = 404) ∧
    (∀ u, User.get db username = Except.ok u →
      (pr.username = username ∨ pr.isAdmin = true) →
      (getUserByName (some pr) username db).1 = Response.ok 200 (ResBody.user u)) ∧
    (userExists db username = true → pr.username ≠ username → pr.isAdmin = false →
      (getUserByName (some pr) username db).1.status = 401) := by
  refine ⟨?_, ?_, ?_, ?_, ?_, ?_, ?_, ?_⟩
  · intro hex
    unfold companyExists at hex
    cases hfind : db.companies.find? (fun c => c.handle == handle) with
    | some c => rw [hfind] at hex; simp at hex
    | none => simp [getCompanyByHandle, Company.get, hfind, errorResponder, Response.status]
  · intro c js hget
    simp [getCompanyByHandle, hget]
  · intro hex
    unfold jobExists at hex
    cases hfind : db.jobs.find? (fun j => j.id == id) with
    | some j => rw [hfind] at hex; simp at hex
    | none => simp [getJobById, Job.get, hfind, errorResponder, Response.status]
  · intro j hget
    simp [getJobById, hget]
  · simp [getUserByName, ensureLoggedIn, errorResponder, Response.status]
  · intro hex
    unfold userExists at hex
    cases hfind : db.users.find? (fun u => u.username == username) with
    | some u => rw [hfind] at hex; simp at hex
    | none => simp [getUserByName, ensureLoggedIn, User.get, hfind, errorResponder, Response.status]
  · intro u hget hok
    have : (!(pr.username == username) && !pr.isAdmin) = false := by
      cases hok with
      | inl h => simp [h]
      | inr h => simp [h]
    simp [getUserByName, ensureLoggedIn, hget, this]
  · intro hex hne hadm
    have hb : (pr.username == username) = false := by simp [hne]
    unfold userExists at hex
    cases hfind : db.users.find? (fun u => u.username == username) with
    | none => rw [hfind] at hex; simp at hex
    | some u =>
      simp [getUserByName, ensureLoggedIn, User.get, hfind, hb, hadm,
        errorResponder, Response.status]

/-- C3 (amended) witness: over the sample database, a missing handle/id/
username yields 404, the existing ones yield 200 with the stored entity for
an admin, anonymous user lookup yields 401, and `alice` looking up the
existing `bob` yields 401. -/
theorem getByKey_status_witness :
    (getCompanyByHandle "acme" dbSample).1.status = 404 ∧
    (getCompanyByHandle "ibm" dbSample).1 = Response.ok 200 (ResBody.company ibmRec [devJob]) ∧
    (getJobById 99 dbSample).1.status = 404 ∧
    (getJobById 7 dbSample).1 = Response.ok 200 (ResBody.job devJob) ∧
    (getUserByName none "bob" dbSample).1.status = 401 ∧
    (getUserByName (some bossP) "zoe" dbSample).1.status = 404 ∧
    (getUserByName (some bossP) "bob" dbSample).1 = Response.ok 200 (ResBody.user bobRec) ∧
    (getUserByName (some aliceP) "bob" dbSample).1.status = 401 :=
  ⟨(getByKey_status dbSample "acme" 99 "zoe" bossP).1 (by decide),
   (getByKey_status dbSample "ibm" 7 "zoe" bossP).2.1 ibmRec [devJob] rfl,
   (getByKey_status dbSample "acme" 99 "zoe" bossP).2.2.1 (by decide),
   (getByKey_status dbSample "acme" 7 "zoe" bossP).2.2.2.1 devJob rfl,
   (getByKey_status dbSample "acme" 99 "bob" bossP).2.2.2.2.1,
   (getByKey_status dbSample "acme" 99 "zoe" bossP).2.2.2.2.2.1 (by decide),
   (getByKey_status dbSample "acme" 99 "bob" bossP).2.2.2.2.2.2.1 bobRec rfl
     (Or.inr (by decide)),
   (getByKey_status dbSample "acme" 99 "bob" aliceP).2.2.2.2.2.2.2 (by decide)
     (by decide) (by decide)⟩
/-- C4 counterexample: an admin `POST /companies` with an empty body is
rejected with 400, but the message payload is the comma-joined *string* of
the schema errors (`errors.join(", ")` in the source), not a list of error
descriptions as the claim states. -/
theorem invalidBody_payload_not_always_list :
    (postCompanies (some bossP) {} dbSample).1.status = 400 ∧
    isListPayload (postCompanies (some bossP) {} dbSample).1 = false := by
  decide

/-- C4 (amended): a create or update request whose body fails the named
schema is answered with 400, the database is unchanged, and the data-access
operation is never invoked; the users router carries the non-empty error
list itself as the message payload, while the companies and jobs routers
carry the comma-joined string of that list. -/
theorem invalidBody_rejected (pr : Principal) (hadm : pr.isAdmin = true)
    (ub ub2 : UserBody) (cb cb2 : CompanyBody) (jb jb2 : JobBody)
    (username handle : String) (id : Nat) (db : DB)
    (h1 : userNewErrors ub ≠ []) (h2 : companyNewErrors cb ≠ [])
    (h3 : jobNewErrors jb ≠ []) (h4 : userUpdateErrors ub2 ≠ [])
    (h5 : companyUpdateErrors cb2 ≠ []) (h6 : jobUpdateErrors jb2 ≠ []) :
    postUsers (some pr) ub db =
      (Response.err 400 (ErrPayload.msgList (userNewErrors ub)), db,
        [Event.guardAdmin true, Event.validate "userNew" false]) ∧
    postCompanies (some pr) cb db =
      (Response.err 400 (ErrPayload.msgStr (String.intercalate ", " (companyNewErrors cb))), db,
        [Event.guardAdmin true, Event.validate "companyNew" false]) ∧
    postJobs (some pr) jb db =
      (Response.err 400 (ErrPayload.msgStr (String.intercalate ", " (jobNewErrors jb))), db,
        [Event.guardAdmin true, Event.validate "jobNew" false]) ∧
    patchUser (some pr) username ub2 db =
      (Response.err 400 (ErrPayload.msgList (userUpdateErrors ub2)), db,
        [Event.guardLoggedIn true, Event.validate "userUpdate" false]) ∧
    patchCompany (some pr) handle cb2 db =
      (Response.err 400 (ErrPayload.msgStr (String.intercalate ", " (companyUpdateErrors cb2))), db,
        [Event.guardAdmin true, Event.validate "companyUpdate" false]) ∧
    patchJob (some pr) id jb2 db =
      (Response.err 400 (ErrPayload.msgStr (String.intercalate ", " (jobUpdateErrors jb2))), db,
        [Event.guardAdmin true, Event.validate "jobUpdate" false]) := by
  have e1 : (userNewErrors ub).isEmpty = false := by
    cases hI : (userNewErrors ub).isEmpty with
    | true => exact absurd (List.isEmpty_iff.mp hI) h1
    | false => rfl
  have e2 : (companyNewErrors cb).isEmpty = false := by
    cases hI : (companyNewErrors cb).isEmpty with
    | true => exact absurd (List.isEmpty_iff.mp hI) h2
    | false => rfl
  have e3 : (jobNewErrors jb).isEmpty = false := by
    cases hI : (jobNewErrors jb).isEmpty with
    | true => exact absurd (List.isEmpty_iff.mp hI) h3
    | false => rfl
  have e4 : (userUpdateErrors ub2).isEmpty = false := by
    cases hI : (userUpdateErrors ub2).isEmpty with
    | true => exact absurd (List.isEmpty_iff.mp hI) h4
    | false => rfl
  have e5 : (companyUpdateErrors cb2).isEmpty = false := by
    cases hI : (companyUpdateErrors cb2).isEmpty with
    | true => exact absurd (List.isEmpty_iff.mp hI) h5
    | false => rfl
  have e6 : (jobUpdateErrors jb2).isEmpty = false := by
    cases hI : (jobUpdateErrors jb2).isEmpty with
    | true => exact absurd (List.isEmpty_iff.mp hI) h6
    | false => rfl
  refine ⟨?_, ?_, ?_, ?_, ?_, ?_⟩ <;>
    simp [postUsers, postCompanies, postJobs, patchUser, patchCompany, patchJob,
      ensureAdmin, ensureLoggedIn, hadm, e1, e2, e3, e4, e5, e6,
      errorResponder]

/-- C4 (amended) witness: concrete invalid bodies — empty creation bodies
and update bodies touching an immutable key — are all rejected with 400 over
the sample database, with the documented payloads, and the state is
untouched. -/
theorem invalidBody_rejected_witness :
    postUsers (some bossP) {} dbSample =
      (Response.err 400 (ErrPayload.msgList (userNewErrors {})), dbSample,
        [Event.guardAdmin true, Event.validate "userNew" false]) ∧
    postCompanies (some bossP) {} dbSample =
      (Response.err 400 (ErrPayload.msgStr (String.intercalate ", " (companyNewErrors {}))), dbSample,
        [Event.guardAdmin true, Event.validate "companyNew" false]) ∧
    postJobs (some bossP) {} dbSample =
      (Response.err 400 (ErrPayload.msgStr (String.intercalate ", " (jobNewErrors {}))), dbSample,
        [Event.guardAdmin true, Event.validate "jobNew" false]) ∧
    patchUser (some bossP) "bob" { username := some "zoe" } dbSample =
      (Response.err 400 (ErrPayload.msgList (userUpdateErrors { username := some "zoe" })), dbSample,
        [Event.guardLoggedIn true, Event.validate "userUpdate" false]) ∧
    patchCompany (some bossP) "ibm" { handle := some "hal" } dbSample =
      (Response.err 400 (ErrPayload.msgStr (String.intercalate ", " (companyUpdateErrors { handle := some "hal" }))), dbSample,
        [Event.guardAdmin true, Event.validate "companyUpdate" false]) ∧
    patchJob (some bossP) 7 { companyHandle := some "hal" } dbSample =
      (Response.err 400 (ErrPayload.msgStr (String.intercalate ", " (jobUpdateErrors { companyHandle := some "hal" }))), dbSample,
        [Event.guardAdmin true, Event.validate "jobUpdate" false]) :=
  invalidBody_rejected bossP (by decide) {} { username := some "zoe" } {}
    { handle := some "hal" } {} { companyHandle := some "hal" } "bob" "ibm" 7 dbSample
    (by decide) (by decide) (by decide) (by decide) (by decide) (by decide)
/-- `parseIntCore` always yields a number value: an `Int` or `NaN`. -/
theorem parseIntCore_typed (neg : Bool) (rest : List Char) :
    parseIntCore neg rest = JSVal.nan ∨ ∃ m : Int, parseIntCore neg rest = JSVal.num m := by
  unfold parseIntCore
  by_cases h : (rest.takeWhile Char.isDigit).isEmpty = true
  · exact Or.inl (by simp [h])
  · cases neg
    · exact Or.inr ⟨(digitsToNat (rest.takeWhile Char.isDigit) : Int), by simp [h]⟩
    · exact Or.inr ⟨-(digitsToNat (rest.takeWhile Char.isDigit) : Int), by simp [h]⟩

/-- `parseIntStr` always yields a number value: an `Int` or `NaN`. -/
theorem parseIntStr_typed (s : String) :
    parseIntStr s = JSVal.nan ∨ ∃ m : Int, parseIntStr s = JSVal.num m := by
  unfold parseIntStr
  split <;> exact parseIntCore_typed _ _

/-- C5 counterexample: with an empty query string, `GET /companies` passes
`minEmployees = NaN` (from `parseInt(undefined)`) and `GET /jobs` passes
`hasEquity = false` to `findAll` — neither absent filter is passed through
as `undefined`, contrary to the claim. -/
theorem absent_filters_not_undefined :
    (companiesFiltersOf {}).minEmployees ≠ JSVal.undefined ∧
    (jobsFiltersOf {}).hasEquity ≠ JSVal.undefined := by
  decide

/-- C5 (amended): each list route passes exactly its constructed filter
object to `findAll`; supplied `name`/`title` strings pass through and absent
ones are `undefined`; the numeric filters are always typed as an integer or
`NaN`, with absent `minEmployees`/`maxEmployees` becoming `NaN` (the
unconditional `parseInt`) and absent `minSalary` staying `undefined`; and
`hasEquity` is the boolean of the comparison with `"true"`, so it is `false`
— not `undefined` — when absent. -/
theorem listFilters_typed (q : CompanyQuery) (qj : JobQuery) (db : DB) (s : String) :
    getCompanies q db =
      (Response.ok 200 (ResBody.companies (Company.findAll db (companiesFiltersOf q))), db,
        [Event.dbRead "Company.findAll"]) ∧
    getJobs qj db =
      (Response.ok 200 (ResBody.jobs (Job.findAll db (jobsFiltersOf qj))), db,
        [Event.dbRead "Job.findAll"]) ∧
    (q.name = none → (companiesFiltersOf q).name = JSVal.undefined) ∧
    (q.name = some s → (companiesFiltersOf q).name = JSVal.str s) ∧
    (q.minEmployees = none → (companiesFiltersOf q).minEmployees = JSVal.nan) ∧
    ((companiesFiltersOf q).minEmployees = JSVal.nan ∨
      ∃ m : Int, (companiesFiltersOf q).minEmployees = JSVal.num m) ∧
    ((companiesFiltersOf q).maxEmployees = JSVal.nan ∨
      ∃ m : Int, (companiesFiltersOf q).maxEmployees = JSVal.num m) ∧
    (qj.title = none → (jobsFiltersOf qj).title = JSVal.undefined) ∧
    (qj.minSalary = none → (jobsFiltersOf qj).minSalary = JSVal.undefined) ∧
    (qj.minSalary = some s → s ≠ "" →
      ((jobsFiltersOf qj).minSalary = JSVal.nan ∨
        ∃ m : Int, (jobsFiltersOf qj).minSalary = JSVal.num m)) ∧
    (qj.hasEquity = none → (jobsFiltersOf qj).hasEquity = JSVal.bool false) ∧
    (qj.hasEquity = some "true" → (jobsFiltersOf qj).hasEquity = JSVal.bool true) := by
  refine ⟨rfl, rfl, ?_, ?_, ?_, ?_, ?_, ?_, ?_, ?_, ?_, ?_⟩
  · intro h; simp [companiesFiltersOf, optStr, h]
  · intro h; simp [companiesFiltersOf, optStr, h]
  · intro h; simp [companiesFiltersOf, parseIntOpt, h]
  · cases h : q.minEmployees with
    | none => exact Or.inl (by simp [companiesFiltersOf, parseIntOpt, h])
    | some t =>
      have := parseIntStr_typed t
      simpa [companiesFiltersOf, parseIntOpt, h] using this
  · cases h : q.maxEmployees with
    | none => exact Or.inl (by simp [companiesFiltersOf, parseIntOpt, h])
    | some t =>
      have := parseIntStr_typed t
      simpa [companiesFiltersOf, parseIntOpt, h] using this
  · intro h; simp [jobsFiltersOf, optStr, h]
  · intro h; simp [jobsFiltersOf, truthyStr, h]
  · intro h hne
    have hb : (s == "") = false := by simp [hne]
    have := parseIntStr_typed s
    simpa [jobsFiltersOf, truthyStr, parseIntOpt, h, hb] using this
  · intro h; simp [jobsFiltersOf, h]
  · intro h; simp [jobsFiltersOf, h]

/-- C5 (amended) witness: concrete queries — empty queries give
`minEmployees = NaN`, `minSalary = undefined`, `hasEquity = false`; supplied
values give `name = "net"`, a typed `minEmployees`, `hasEquity = true`; and
both list routes hand the constructed filters to `findAll` over the sample
database. -/
theorem listFilters_typed_witness :
    getCompanies {} dbSample =
      (Response.ok 200 (ResBody.companies (Company.findAll dbSample (companiesFiltersOf {}))),
        dbSample, [Event.dbRead "Company.findAll"]) ∧
    getJobs {} dbSample =
      (Response.ok 200 (ResBody.jobs (Job.findAll dbSample (jobsFiltersOf {}))),
        dbSample, [Event.dbRead "Job.findAll"]) ∧
    (companiesFiltersOf {}).minEmployees = JSVal.nan ∧
    (companiesFiltersOf { name := some "net" }).name = JSVal.str "net" ∧
    ((companiesFiltersOf { minEmployees := some "10" }).minEmployees = JSVal.nan ∨
      ∃ m : Int, (companiesFiltersOf { minEmployees := some "10" }).minEmployees = JSVal.num m) ∧
    (jobsFiltersOf {}).minSalary = JSVal.undefined ∧
    ((jobsFiltersOf { minSalary := some "50" }).minSalary = JSVal.nan ∨
      ∃ m : Int, (jobsFiltersOf { minSalary := some "50" }).minSalary = JSVal.num m) ∧
    (jobsFiltersOf {}).hasEquity = JSVal.bool false ∧
    (jobsFiltersOf { hasEquity := some "true" }).hasEquity = JSVal.bool true :=
  ⟨(listFilters_typed {} {} dbSample "net").1,
   (listFilters_typed {} {} dbSample "net").2.1,
   (listFilters_typed {} {} dbSample "net").2.2.2.2.1 rfl,
   (listFilters_typed { name := some "net" } {} dbSample "net").2.2.2.1 rfl,
   (listFilters_typed { minEmployees := some "10" } {} dbSample "net").2.2.2.2.2.1,
   (listFilters_typed {} {} dbSample "net").2.2.2.2.2.2.2.2.1 rfl,
   (listFilters_typed {} { minSalary := some "50" } dbSample "50").2.2.2.2.2.2.2.2.2.1 rfl
     (by decide),
   (listFilters_typed {} {} dbSample "net").2.2.2.2.2.2.2.2.2.2.1 rfl,
   (listFilters_typed {} { hasEquity := some "true" } dbSample "net").2.2.2.2.2.2.2.2.2.2.2 rfl⟩
/-- No ownership-check event occurs before the first validation event of the
trace (so whenever both occur, validation came first). -/
def checksAfterValidation (es : List Event) : Bool :=
  (es.takeWhile (fun e => !(Event.isValidate e))).all (fun e => !(Event.isOwnershipCheck e))

/-- C6: on `PATCH /users/:username` the handler validates the body before
the self-or-admin ownership check — no trace of the handler performs an
ownership check before a validation event, and an invalid body draws 400
even from a requester who is neither the target nor an admin; on
`DELETE /users/:username` the ownership check comes before any mutation — a
requester who is neither the target nor an admin gets 401, the state is
unchanged, and `User.remove` never appears in the trace. -/
theorem patch_validates_before_ownership (p : Option Principal) (pr : Principal)
    (username : String) (body : UserBody) (db : DB)
    (hne : pr.username ≠ username) (hadm : pr.isAdmin = false) :
    checksAfterValidation (patchUser p username body db).2.2 = true ∧
    (userUpdateErrors body ≠ [] → (patchUser (some pr) username body db).1.status = 400) ∧
    rejectedNoMutation (deleteUser (some pr) username db) db := by
  have hb : (pr.username == username) = false := by simp [hne]
  refine ⟨?_, ?_, ?_⟩
  · cases p with
    | none =>
      simp [patchUser, ensureLoggedIn, checksAfterValidation,
        Event.isValidate, Event.isOwnershipCheck]
    | some q =>
      by_cases hv : (userUpdateErrors body).isEmpty = true
      · by_cases hown : (!(q.username == username) && !q.isAdmin) = true
        · simp [patchUser, ensureLoggedIn, hv, hown, checksAfterValidation,
            Event.isValidate, Event.isOwnershipCheck]
        · cases hup : User.update db username body with
          | error e =>
            simp [patchUser, ensureLoggedIn, hv, hown, hup, checksAfterValidation,
              Event.isValidate, Event.isOwnershipCheck]
          | ok r =>
            obtain ⟨db2, u⟩ := r
            simp [patchUser, ensureLoggedIn, hv, hown, hup, checksAfterValidation,
              Event.isValidate, Event.isOwnershipCheck]
      · simp [patchUser, ensureLoggedIn, hv, checksAfterValidation,
          Event.isValidate, Event.isOwnershipCheck]
  · intro hv
    have hE : (userUpdateErrors body).isEmpty = false := by
      cases hI : (userUpdateErrors body).isEmpty with
      | true => exact absurd (List.isEmpty_iff.mp hI) hv
      | false => rfl
    simp [patchUser, ensureLoggedIn, hE, errorResponder, Response.status]
  · simp [rejectedNoMutation, deleteUser, ensureLoggedIn, hb, hadm,
      errorResponder, Response.status, hasWrite, Event.isDbWrite]

/-- C6 witness: concrete traces — `alice` patching `bob` with a clean body
shows validation before the failed ownership check, her PATCH carrying
`username` is a 400, and her DELETE of `bob` is a 401 with no mutation. -/
theorem patch_validates_before_ownership_witness :
    checksAfterValidation (patchUser (some aliceP) "bob" {} dbSample).2.2 = true ∧
    (patchUser (some aliceP) "bob" ({ username := some "zoe" } : UserBody) dbSample).1.status = 400 ∧
    rejectedNoMutation (deleteUser (some aliceP) "bob" dbSample) dbSample :=
  ⟨(patch_validates_before_ownership (some aliceP) aliceP "bob" {} dbSample
      (by decide) (by decide)).1,
   (patch_validates_before_ownership (some aliceP) aliceP "bob" { username := some "zoe" }
      dbSample (by decide) (by decide)).2.1 (by decide),
   (patch_validates_before_ownership (some aliceP) aliceP "bob" {} dbSample
      (by decide) (by decide)).2.2⟩

/-- C7 counterexample: an unauthenticated `DELETE /companies/nope` on the
empty database (no such handle) is answered 401 by the admin guard, not 404
as the claim requires of every delete of a missing key. -/
theorem delete_missing_cex :
    companyExists ({} : DB) "nope" = false ∧
    (deleteCompany none "nope" {}).1.status = 401 ∧
    ¬ (deleteCompany none "nope" {}).1.status = 404 := by
  decide

/-- C7 (amended): deleting a key that names no entity never yields a
`200 { deleted: key }` success for any principal; when the route's guard is
passed — an admin for companies/jobs/users, or the requester addressing
their own username — the response is the 404 not-found condition raised by
the data-access remove. -/
theorem delete_missing_never_deleted (p : Option Principal) (pr : Principal)
    (handle username : String) (id : Nat) (db : DB)
    (hc : companyExists db handle = false) (hj : jobExists db id = false)
    (hu : userExists db username = false) :
    (deleteCompany p handle db).1.isDeletedOk = false ∧
    (deleteJob p id db).1.isDeletedOk = false ∧
    (deleteUser p username db).1.isDeletedOk = false ∧
    (pr.isAdmin = true →
      (deleteCompany (some pr) handle db).1.status = 404 ∧
      (deleteJob (some pr) id db).1.status = 404 ∧
      (deleteUser (some pr) username db).1.status = 404) ∧
    (pr.username = username → (deleteUser (some pr) username db).1.status = 404) := by
  have hcf : db.companies.find? (fun c => c.handle == handle) = none := by
    unfold companyExists at hc
    cases hfind : db.companies.find? (fun c => c.handle == handle) with
    | none => rfl
    | some c => rw [hfind] at hc; simp at hc
  have hjf : db.jobs.find? (fun j => j.id == id) = none := by
    unfold jobExists at hj
    cases hfind : db.jobs.find? (fun j => j.id == id) with
    | none => rfl
    | some j => rw [hfind] at hj; simp at hj
  have huf : db.users.find? (fun u => u.username == username) = none := by
    unfold userExists at hu
    cases hfind : db.users.find? (fun u => u.username == username) with
    | none => rfl
    | some u => rw [hfind] at hu; simp at hu
  refine ⟨?_, ?_, ?_, ?_, ?_⟩
  · cases p with
    | none => simp [deleteCompany, ensureAdmin, errorResponder, Response.isDeletedOk]
    | some q =>
      by_cases ha : q.isAdmin
      · simp [deleteCompany, ensureAdmin, ha, Company.remove, hcf,
          errorResponder, Response.isDeletedOk]
      · simp [deleteCompany, ensureAdmin, ha, errorResponder, Response.isDeletedOk]
  · cases p with
    | none => simp [deleteJob, ensureAdmin, errorResponder, Response.isDeletedOk]
    | some q =>
      by_cases ha : q.isAdmin
      · simp [deleteJob, ensureAdmin, ha, Job.remove, hjf,
          errorResponder, Response.isDeletedOk]
      · simp [deleteJob, ensureAdmin, ha, errorResponder, Response.isDeletedOk]
  · cases p with
    | none => simp [deleteUser, ensureLoggedIn, errorResponder, Response.isDeletedOk]
    | some q =>
      by_cases hown : (!(q.username == username) && !q.isAdmin) = true
      · simp [deleteUser, ensureLoggedIn, hown, errorResponder, Response.isDeletedOk]
      · simp [deleteUser, ensureLoggedIn, hown, User.remove, huf,
          errorResponder, Response.isDeletedOk]
  · intro ha
    refine ⟨?_, ?_, ?_⟩
    · simp [deleteCompany, ensureAdmin, ha, Company.remove, hcf,
        errorResponder, Response.status]
    · simp [deleteJob, ensureAdmin, ha, Job.remove, hjf,
        errorResponder, Response.status]
    · simp [deleteUser, ensureLoggedIn, ha, User.remove, huf,
        errorResponder, Response.status]
  · intro hs
    simp [deleteUser, ensureLoggedIn, hs, User.remove, huf,
      errorResponder, Response.status]

/-- C7 (amended) witness: over the sample database, deletes of the missing
`acme`/99/`zoe` are never `200 { deleted }`: anonymous requests get guarded,
the admin `boss` gets 404 on all three, and `zoe` deleting her own missing
username gets 404. -/
theorem delete_missing_never_deleted_witness :
    (deleteCompany none "acme" dbSample).1.isDeletedOk = false ∧
    (deleteJob none 99 dbSample).1.isDeletedOk = false ∧
    (deleteUser none "zoe" dbSample).1.isDeletedOk = false ∧
    (deleteCompany (some bossP) "acme" dbSample).1.status = 404 ∧
    (deleteJob (some bossP) 99 dbSample).1.status = 404 ∧
    (deleteUser (some bossP) "zoe" dbSample).1.status = 404 ∧
    (deleteUser (some zoeP) "zoe" dbSample).1.status = 404 :=
  ⟨(delete_missing_never_deleted none bossP "acme" "zoe" 99 dbSample
      (by decide) (by decide) (by decide)).1,
   (delete_missing_never_deleted none bossP "acme" "zoe" 99 dbSample
      (by decide) (by decide) (by decide)).2.1,
   (delete_missing_never_deleted none bossP "acme" "zoe" 99 dbSample
      (by decide) (by decide) (by decide)).2.2.1,
   ((delete_missing_never_deleted none bossP "acme" "zoe" 99 dbSample
      (by decide) (by decide) (by decide)).2.2.2.1 rfl).1,
   ((delete_missing_never_deleted none bossP "acme" "zoe" 99 dbSample
      (by decide) (by decide) (by decide)).2.2.2.1 rfl).2.1,
   ((delete_missing_never_deleted none bossP "acme" "zoe" 99 dbSample
      (by decide) (by decide) (by decide)).2.2.2.1 rfl).2.2,
   (delete_missing_never_deleted none zoeP "acme" "zoe" 99 dbSample
      (by decide) (by decide) (by decide)).2.2.2.2 (by rfl)⟩
/-- C8: an admin `POST /jobs` with body
`{title:"Engineer", salary:100000, equity:"0.1", companyHandle:"ibm"}`
succeeds with 201 and an assigned id, and `GET /jobs/:id` on that id over
the resulting state returns 200 with the same four fields plus the id.
The freshness hypothesis is the serial-id invariant of the persistence
collaborator: no stored job already carries the next serial id. -/
theorem job_roundTrip (pr : Principal) (db : DB) (hadm : pr.isAdmin = true)
    (hfresh : ∀ j ∈ db.jobs, j.id ≠ db.nextJobId) :
    ∃ (j : Job) (db2 : DB),
      postJobs (some pr)
        { title := some "Engineer", salary := some 100000,
          equity := some "0.1", companyHandle := some "ibm" } db =
        (Response.ok 201 (ResBody.job j), db2,
          [Event.guardAdmin true, Event.validate "jobNew" true, Event.dbWrite "Job.create"]) ∧
      j.title = "Engineer" ∧ j.salary = 100000 ∧ j.equity = "0.1" ∧
      j.companyHandle = "ibm" ∧
      getJobById j.id db2 =
        (Response.ok 200 (ResBody.job j), db2, [Event.dbRead "Job.get"]) := by
  refine ⟨⟨db.nextJobId, "Engineer", 100000, "0.1", "ibm"⟩,
          ⟨db.users, db.companies,
            db.jobs ++ [⟨db.nextJobId, "Engineer", 100000, "0.1", "ibm"⟩],
            db.nextJobId + 1⟩,
          ?_, rfl, rfl, rfl, rfl, ?_⟩
  · simp [postJobs, ensureAdmin, hadm, jobNewErrors, requireErr, Job.create]
  · have hnone : db.jobs.find? (fun w => w.id == db.nextJobId) = none := by
      rw [List.find?_eq_none]
      intro j hj
      simp [hfresh j hj]
    simp [getJobById, Job.get, List.find?_append, hnone]

/-- C8 witness: the round trip over the sample database — the job is
created under the fresh id 8 and read back intact. -/
theorem job_roundTrip_witness :
    ∃ (j : Job) (db2 : DB),
      postJobs (some bossP)
        { title := some "Engineer", salary := some 100000,
          equity := some "0.1", companyHandle := some "ibm" } dbSample =
        (Response.ok 201 (ResBody.job j), db2,
          [Event.guardAdmin true, Event.validate "jobNew" true, Event.dbWrite "Job.create"]) ∧
      j.title = "Engineer" ∧ j.salary = 100000 ∧ j.equity = "0.1" ∧
      j.companyHandle = "ibm" ∧
      getJobById j.id db2 =
        (Response.ok 200 (ResBody.job j), db2, [Event.dbRead "Job.get"]) :=
  job_roundTrip bossP dbSample (by decide) (by decide)

/-- C9: an admin `POST /users` with a body valid against the new-user schema
responds 201, and the response body carries the created user record together
with a token issued from that record; the record is persisted. -/
theorem postUsers_creates_with_token (pr : Principal) (body : UserBody) (db : DB)
    (hadm : pr.isAdmin = true) (hv : userNewErrors body = []) :
    ∃ u : User,
      (postUsers (some pr) body db).1 =
        Response.ok 201 (ResBody.userToken u (createToken u)) ∧
      u ∈ (postUsers (some pr) body db).2.1.users := by
  have hE : (userNewErrors body).isEmpty = true := by simp [hv]
  refine ⟨(User.register db body).2, ?_, ?_⟩
  · simp [postUsers, ensureAdmin, hadm, hE]
  · simp [postUsers, ensureAdmin, hadm, hE, User.register]

/-- C9 witness: the admin `boss` registers a complete new user over the
sample database. -/
theorem postUsers_creates_with_token_witness :
    ∃ u : User,
      (postUsers (some bossP)
        { username := some "carol", firstName := some "Carol",
          lastName := some "C", password := some "pw2",
          email := some "carol@example.com", isAdmin := some false } dbSample).1 =
        Response.ok 201 (ResBody.userToken u (createToken u)) ∧
      u ∈ (postUsers (some bossP)
        { username := some "carol", firstName := some "Carol",
          lastName := some "C", password := some "pw2",
          email := some "carol@example.com", isAdmin := some false } dbSample).2.1.users :=
  postUsers_creates_with_token bossP
    { username := some "carol", firstName := some "Carol", lastName := some "C",
      password := some "pw2", email := some "carol@example.com", isAdmin := some false }
    dbSample (by decide) (by decide)

/-- C10: in `GET /users/:username` the `User.get` read and its not-found
outcome come before the self-or-admin check — the trace for a missing
target stops at the read (no ownership event) and yields 404, while the
trace for an existing target reaches the failed ownership check and yields
401 — so an authenticated non-admin requester can tell whether another
username exists from the two distinct responses. -/
theorem userGet_existence_observable (pr : Principal) (username : String)
    (dbA dbP : DB) (hadm : pr.isAdmin = false) (hne : pr.username ≠ username)
    (habs : userExists dbA username = false)
    (hpres : userExists dbP username = true) :
    (getUserByName (some pr) username dbA).2.2 =
      [Event.guardLoggedIn true, Event.dbRead "User.get"] ∧
    (getUserByName (some pr) username dbA).1.status = 404 ∧
    (getUserByName (some pr) username dbP).2.2 =
      [Event.guardLoggedIn true, Event.dbRead "User.get", Event.ownershipCheck false] ∧
    (getUserByName (some pr) username dbP).1.status = 401 ∧
    (getUserByName (some pr) username dbA).1.status ≠
      (getUserByName (some pr) username dbP).1.status := by
  have hb : (pr.username == username) = false := by simp [hne]
  have hAf : dbA.users.find? (fun u => u.username == username) = none := by
    unfold userExists at habs
    cases hfind : dbA.users.find? (fun u => u.username == username) with
    | none => rfl
    | some u => rw [hfind] at habs; simp at habs
  obtain ⟨u, hPf⟩ : ∃ u, dbP.users.find? (fun w => w.username == username) = some u := by
    unfold userExists at hpres
    cases hfind : dbP.users.find? (fun w => w.username == username) with
    | none => rw [hfind] at hpres; simp at hpres
    | some u => exact ⟨u, rfl⟩
  refine ⟨?_, ?_, ?_, ?_, ?_⟩ <;>
    simp [getUserByName, ensureLoggedIn, User.get, hAf, hPf, hb, hadm,
      errorResponder, Response.status]

/-- C10 witness: `alice` probing `bob` sees 404 against the empty database
and 401 against the sample database where `bob` exists; the traces differ as
described. -/
theorem userGet_existence_observable_witness :
    (getUserByName (some aliceP) "bob" {}).2.2 =
      [Event.guardLoggedIn true, Event.dbRead "User.get"] ∧
    (getUserByName (some aliceP) "bob" {}).1.status = 404 ∧
    (getUserByName (some aliceP) "bob" dbSample).2.2 =
      [Event.guardLoggedIn true, Event.dbRead "User.get", Event.ownershipCheck false] ∧
    (getUserByName (some aliceP) "bob" dbSample).1.status = 401 ∧
    (getUserByName (some aliceP) "bob" {}).1.status ≠
      (getUserByName (some aliceP) "bob" dbSample).1.status :=
  userGet_existence_observable aliceP "bob" {} dbSample
    (by decide) (by decide) (by decide) (by decide)
